import Mathlib

/-!
Shallow embedding of the PBLotSize futures lot-size calculator
(src/src/App.tsx). The file contains two near-duplicate React components;
their decision logic — the `calculations` memo (typed variant, lines 82-116;
untyped variant, lines 312-350), the instrument table `INSTRUMENT_DATA`, and
the three event handlers `handleRiskAmountChange` / `handleHalfRisk` /
`handleFullRisk` — is embedded below.

JavaScript numbers are modelled by `JSNum`: `nan`, signed infinities, or a
finite value carried as an exact rational. The special-value semantics of
the arithmetic operations (`*`, `/`, `-`, `Math.floor`, `Math.ceil`,
comparisons, `isNaN`, `isFinite`, the `|| 0` falsy coercion) follow
ECMAScript exactly; finite arithmetic is idealised as exact rational
arithmetic (double rounding and overflow of finite values are not modelled).
-/

namespace PBLotSize

/-- A JavaScript number: NaN, an infinity (`inf true` is `+Infinity`,
`inf false` is `-Infinity`), or a finite value modelled as an exact
rational. -/
inductive JSNum where
  | nan : JSNum
  | inf : Bool → JSNum
  | fin : ℚ → JSNum
  deriving DecidableEq

/-- JS `<=` on numbers: any comparison with NaN is false; `-Infinity` is
below everything, `+Infinity` above everything, and `Infinity <= Infinity`
holds. -/
def jsLe : JSNum → JSNum → Bool
  | .nan, _ => false
  | _, .nan => false
  | .inf false, _ => true
  | _, .inf true => true
  | .inf true, _ => false
  | _, .inf false => false
  | .fin a, .fin b => decide (a ≤ b)

/-- JS `<` on numbers: false whenever either side is NaN. -/
def jsLt : JSNum → JSNum → Bool
  | .nan, _ => false
  | _, .nan => false
  | .inf true, _ => false
  | _, .inf false => false
  | .inf false, _ => true
  | _, .inf true => true
  | .fin a, .fin b => decide (a < b)

/-- JS multiplication: NaN propagates, `0 * Infinity = NaN`, signs of
infinities multiply, finite values multiply exactly. -/
def jsMul : JSNum → JSNum → JSNum
  | .nan, _ => .nan
  | _, .nan => .nan
  | .inf s, .inf t => .inf (s == t)
  | .inf s, .fin b => if b = 0 then .nan else .inf (s == decide (0 < b))
  | .fin a, .inf t => if a = 0 then .nan else .inf (t == decide (0 < a))
  | .fin a, .fin b => .fin (a * b)

/-- JS division: NaN propagates, `Infinity / Infinity = NaN`,
`finite / Infinity = 0`, `x / 0` is NaN for `x = 0` and a signed infinity
otherwise (the model has no negative zero, so a zero divisor counts as
`+0`). -/
def jsDiv : JSNum → JSNum → JSNum
  | .nan, _ => .nan
  | _, .nan => .nan
  | .inf _, .inf _ => .nan
  | .inf s, .fin b => .inf (s == decide (0 ≤ b))
  | .fin _, .inf _ => .fin 0
  | .fin a, .fin b =>
      if b = 0 then (if a = 0 then .nan else .inf (decide (0 < a)))
      else .fin (a / b)

/-- JS subtraction: NaN propagates and `Infinity - Infinity = NaN`. -/
def jsSub : JSNum → JSNum → JSNum
  | .nan, _ => .nan
  | _, .nan => .nan
  | .inf s, .inf t => if s = t then .nan else .inf s
  | .inf s, .fin _ => .inf s
  | .fin _, .inf t => .inf (!t)
  | .fin a, .fin b => .fin (a - b)

/-- JS unary minus. -/
def jsNeg : JSNum → JSNum
  | .nan => .nan
  | .inf s => .inf (!s)
  | .fin a => .fin (-a)

/-- `Math.floor`: fixes NaN and the infinities, rounds finite values down. -/
def jsFloor : JSNum → JSNum
  | .nan => .nan
  | .inf s => .inf s
  | .fin a => .fin (⌊a⌋ : ℤ)

/-- `Math.ceil`: fixes NaN and the infinities, rounds finite values up. -/
def jsCeil : JSNum → JSNum
  | .nan => .nan
  | .inf s => .inf s
  | .fin a => .fin (⌈a⌉ : ℤ)

/-- JS `isNaN` on a number. -/
def jsIsNaN : JSNum → Bool
  | .nan => true
  | _ => false

/-- JS `isFinite` on a number. -/
def jsIsFinite : JSNum → Bool
  | .fin _ => true
  | _ => false

/-- The `x || 0` idiom applied to a number: NaN and `0` are falsy and give
`0`; every other number is returned unchanged. -/
def orZero (n : JSNum) : JSNum :=
  if n = .nan ∨ n = .fin 0 then .fin 0 else n

/- ### parseFloat -/

/-- Value of a decimal digit character. -/
def charVal (c : Char) : Nat := c.toNat - 48

/-- Split a character list into its longest prefix of decimal digits and
the rest. -/
def readDigits : List Char → List Char × List Char
  | [] => ([], [])
  | c :: cs =>
      if c.isDigit then
        let p := readDigits cs
        (c :: p.1, p.2)
      else ([], c :: cs)

/-- Numeric value of a digit string. -/
def digitsVal (ds : List Char) : Nat :=
  ds.foldl (fun a c => a * 10 + charVal c) 0

/-- Exponent digits after an optional sign; an empty digit run contributes
exponent `0` (`parseFloat` stops before an incomplete exponent part). -/
def expDigits (cs : List Char) : ℤ :=
  let p := readDigits cs
  if p.1.isEmpty then 0 else (digitsVal p.1 : ℤ)

/-- Signed exponent body after the `e` / `E` marker. -/
def parseExpSigned : List Char → ℤ
  | '+' :: cs => expDigits cs
  | '-' :: cs => -expDigits cs
  | cs => expDigits cs

/-- Optional exponent part of a float literal. -/
def parseExp : List Char → ℤ
  | 'e' :: cs => parseExpSigned cs
  | 'E' :: cs => parseExpSigned cs
  | _ => 0

/-- Scale a rational by a power of ten. -/
def applyExp (q : ℚ) (e : ℤ) : ℚ :=
  if 0 ≤ e then q * (10 : ℚ) ^ e.toNat else q / (10 : ℚ) ^ (-e).toNat

/-- Mantissa (`digits`, `digits.digits`, `digits.`, or `.digits`) at the
head of a character list: its value and the remaining characters, or `none`
when no digit is present. -/
def parseMantissa (cs : List Char) : Option (ℚ × List Char) :=
  let p1 := readDigits cs
  match p1.2 with
  | '.' :: rest =>
      let p2 := readDigits rest
      if p1.1.isEmpty && p2.1.isEmpty then none
      else some ((digitsVal p1.1 : ℚ) + (digitsVal p2.1 : ℚ) / (10 : ℚ) ^ p2.1.length, p2.2)
  | _ => if p1.1.isEmpty then none else some ((digitsVal p1.1 : ℚ), p1.2)

/-- Body of `parseFloat` after whitespace and sign: the literal `Infinity`,
or a decimal mantissa with optional exponent, or NaN. -/
def parseUnsigned (cs : List Char) : JSNum :=
  match cs with
  | 'I' :: 'n' :: 'f' :: 'i' :: 'n' :: 'i' :: 't' :: 'y' :: _ => .inf true
  | _ =>
      match parseMantissa cs with
      | none => .nan
      | some (q, rest) => .fin (applyExp q (parseExp rest))

/-- Drop leading whitespace. -/
def skipWs : List Char → List Char
  | [] => []
  | c :: cs =>
      if c = ' ' ∨ c = '\t' ∨ c = '\n' ∨ c = '\r' then skipWs cs else c :: cs

/-- JS `parseFloat`: skip whitespace, read an optional sign, then the
longest valid float literal (`Infinity` included); NaN when no literal is
present. Finite literals are read exactly as rationals (rounding to the
nearest double, and overflow of huge finite literals, are not modelled). -/
def parseFloat (s : String) : JSNum :=
  match skipWs s.data with
  | '-' :: rest => jsNeg (parseUnsigned rest)
  | '+' :: rest => parseUnsigned rest
  | cs => parseUnsigned cs

/- ### Number.prototype.toString -/

/-- Digit character for a value below ten. -/
def digitChar (n : Nat) : Char := Char.ofNat (48 + n)

/-- Decimal digits of a natural number, most significant first
(fuel-bounded; 40 digits cover every value produced by the handlers). -/
def natDigits (fuel n : Nat) : List Char :=
  match fuel with
  | 0 => []
  | f + 1 => if n < 10 then [digitChar n] else natDigits f (n / 10) ++ [digitChar (n % 10)]

/-- Decimal expansion of the fraction `num / den` (with `num < den`),
stopping when the remainder vanishes (fuel-bounded). -/
def fracDigits (fuel num den : Nat) : List Char :=
  match fuel with
  | 0 => []
  | f + 1 =>
      if num = 0 then []
      else digitChar (num * 10 / den) :: fracDigits f (num * 10 % den) den

/-- JS `Number.prototype.toString()`: exact for NaN, the infinities, and
every finite value with a terminating decimal expansion of at most 40
digits — which covers all values the handlers ever stringify (a parsed
decimal halved once). -/
def jsNumToString (n : JSNum) : String :=
  match n with
  | .nan => "NaN"
  | .inf true => "Infinity"
  | .inf false => "-Infinity"
  | .fin q =>
      let sign := if q < 0 then "-" else ""
      let na := q.num.natAbs
      let ip := na / q.den
      let fr := na % q.den
      if fr = 0 then sign ++ String.mk (natDigits 40 ip)
      else sign ++ String.mk (natDigits 40 ip) ++ "." ++ String.mk (fracDigits 40 fr q.den)

/- ### Instrument registry -/

/-- The six instrument identifiers (`type InstrumentKey`, App.tsx line 32). -/
inductive InstrumentKey where
  | NQ | MNQ | ES | MES | GC | MGC
  deriving DecidableEq

/-- Contract economics of one instrument (`interface InstrumentDetails`,
App.tsx lines 25-29). -/
structure InstrumentDetails where
  name : String
  tickValue : ℚ
  ticksPerPoint : ℚ
  deriving DecidableEq

/-- The static instrument table (`INSTRUMENT_DATA`, App.tsx lines 72-79). -/
def INSTRUMENT_DATA : InstrumentKey → InstrumentDetails
  | .NQ => { name := "NQ", tickValue := 5, ticksPerPoint := 4 }
  | .MNQ => { name := "MNQ", tickValue := 1 / 2, ticksPerPoint := 4 }
  | .ES => { name := "ES", tickValue := 25 / 2, ticksPerPoint := 4 }
  | .MES => { name := "MES", tickValue := 5 / 4, ticksPerPoint := 4 }
  | .GC => { name := "GC", tickValue := 10, ticksPerPoint := 10 }
  | .MGC => { name := "MGC", tickValue := 1, ticksPerPoint := 10 }

/- ### Sizing engine -/

/-- The result bundle returned by the `calculations` memo. -/
structure SizingResult where
  rawLotSize : JSNum
  floorLotSize : JSNum
  riskForFloor : JSNum
  ceilLotSize : JSNum
  riskForCeil : JSNum
  riskForOneContract : JSNum
  deriving DecidableEq

/-- The typed variant of the `calculations` memo (App.tsx lines 82-116):
parse both texts with `parseFloat(..) || 0`, zero out all sizing fields
when `slPoints <= 0 || currentRiskAmount <= 0`, otherwise divide the risk
budget by the one-contract risk and round both ways; in the final record
only NaN fields are normalised to `0` (`isNaN(x) ? 0 : x`). -/
def calculations (instrument : InstrumentKey) (stopLossPoints riskAmount : String) :
    SizingResult :=
  let slPoints := orZero (parseFloat stopLossPoints)
  let currentRiskAmount := orZero (parseFloat riskAmount)
  let tickValue := (INSTRUMENT_DATA instrument).tickValue
  let ticksPerPoint := (INSTRUMENT_DATA instrument).ticksPerPoint
  if jsLe slPoints (.fin 0) || jsLe currentRiskAmount (.fin 0) then
    let riskPerContract :=
      if jsLt (.fin 0) slPoints then jsMul (jsMul slPoints (.fin ticksPerPoint)) (.fin tickValue)
      else .fin 0
    { rawLotSize := .fin 0, floorLotSize := .fin 0, riskForFloor := .fin 0,
      ceilLotSize := .fin 0, riskForCeil := .fin 0, riskForOneContract := riskPerContract }
  else
    let riskPerContract := jsMul (jsMul slPoints (.fin ticksPerPoint)) (.fin tickValue)
    let rawLotSize := jsDiv currentRiskAmount riskPerContract
    let floorLotSize := jsFloor rawLotSize
    let riskForFloor := jsMul floorLotSize riskPerContract
    let ceilLotSize := jsCeil rawLotSize
    let riskForCeil := jsMul ceilLotSize riskPerContract
    { rawLotSize := if jsIsNaN rawLotSize then .fin 0 else rawLotSize,
      floorLotSize := if jsIsNaN floorLotSize then .fin 0 else floorLotSize,
      riskForFloor := if jsIsNaN riskForFloor then .fin 0 else riskForFloor,
      ceilLotSize := if jsIsNaN ceilLotSize then .fin 0 else ceilLotSize,
      riskForCeil := if jsIsNaN riskForCeil then .fin 0 else riskForCeil,
      riskForOneContract := riskPerContract }

/-- The untyped variant of the `calculations` memo (App.tsx lines 312-350):
identical to the typed variant except that the final record normalises both
NaN and non-finite fields to `0`
(`isNaN(x) || !isFinite(x) ? 0 : x`). -/
def calculationsUntyped (instrument : InstrumentKey) (stopLossPoints riskAmount : String) :
    SizingResult :=
  let slPoints := orZero (parseFloat stopLossPoints)
  let currentRiskAmount := orZero (parseFloat riskAmount)
  let tickValue := (INSTRUMENT_DATA instrument).tickValue
  let ticksPerPoint := (INSTRUMENT_DATA instrument).ticksPerPoint
  if jsLe slPoints (.fin 0) || jsLe currentRiskAmount (.fin 0) then
    let riskPerContract :=
      if jsLt (.fin 0) slPoints then jsMul (jsMul slPoints (.fin ticksPerPoint)) (.fin tickValue)
      else .fin 0
    { rawLotSize := .fin 0, floorLotSize := .fin 0, riskForFloor := .fin 0,
      ceilLotSize := .fin 0, riskForCeil := .fin 0, riskForOneContract := riskPerContract }
  else
    let riskPerContract := jsMul (jsMul slPoints (.fin ticksPerPoint)) (.fin tickValue)
    let rawLotSize := jsDiv currentRiskAmount riskPerContract
    let floorLotSize := jsFloor rawLotSize
    let riskForFloor := jsMul floorLotSize riskPerContract
    let ceilLotSize := jsCeil rawLotSize
    let riskForCeil := jsMul ceilLotSize riskPerContract
    { rawLotSize := if jsIsNaN rawLotSize || !jsIsFinite rawLotSize then .fin 0 else rawLotSize,
      floorLotSize := if jsIsNaN floorLotSize || !jsIsFinite floorLotSize then .fin 0 else floorLotSize,
      riskForFloor := if jsIsNaN riskForFloor || !jsIsFinite riskForFloor then .fin 0 else riskForFloor,
      ceilLotSize := if jsIsNaN ceilLotSize || !jsIsFinite ceilLotSize then .fin 0 else ceilLotSize,
      riskForCeil := if jsIsNaN riskForCeil || !jsIsFinite riskForCeil then .fin 0 else riskForCeil,
      riskForOneContract := riskPerContract }

/- ### Toggle state machine -/

/-- The component's local state (the five `useState` hooks, App.tsx
lines 65-69). -/
structure AppState where
  instrument : InstrumentKey
  stopLossPoints : String
  riskAmount : String
  isHalfRisk : Bool
  fullRiskValue : String
  deriving DecidableEq

/-- The initial state: instrument `NQ`, stop-loss `"10"`, risk `"100"`,
full-risk toggle inactive, snapshot `"100"` (App.tsx lines 65-69). -/
def initialState : AppState :=
  { instrument := .NQ, stopLossPoints := "10", riskAmount := "100",
    isHalfRisk := false, fullRiskValue := "100" }

/-- `handleRiskAmountChange` (App.tsx lines 119-125): store the edited text
in `riskAmount`, and mirror it into `fullRiskValue` only while the
half-risk toggle is inactive. -/
def handleRiskAmountChange (value : String) (st : AppState) : AppState :=
  let st1 := { st with riskAmount := value }
  if !st.isHalfRisk then { st1 with fullRiskValue := value } else st1

/-- `handleHalfRisk` (App.tsx lines 127-133): when the toggle is inactive,
snapshot `riskAmount` into `fullRiskValue`, replace `riskAmount` by
`(parseFloat(riskAmount) / 2).toString()`, and activate the toggle;
otherwise do nothing. -/
def handleHalfRisk (st : AppState) : AppState :=
  if !st.isHalfRisk then
    { st with fullRiskValue := st.riskAmount,
              riskAmount := jsNumToString (jsDiv (parseFloat st.riskAmount) (.fin 2)),
              isHalfRisk := true }
  else st

/-- `handleFullRisk` (App.tsx lines 135-140): when the toggle is active,
restore `riskAmount` from `fullRiskValue` and deactivate the toggle;
otherwise do nothing. -/
def handleFullRisk (st : AppState) : AppState :=
  if st.isHalfRisk then
    { st with riskAmount := st.fullRiskValue, isHalfRisk := false }
  else st

end PBLotSize

namespace PBLotSize

/-! ## Helper lemmas shared by the claims -/

theorem ticksPerPoint_pos (k : InstrumentKey) : 0 < (INSTRUMENT_DATA k).ticksPerPoint := by
  cases k <;> norm_num [INSTRUMENT_DATA]

theorem tickValue_pos (k : InstrumentKey) : 0 < (INSTRUMENT_DATA k).tickValue := by
  cases k <;> norm_num [INSTRUMENT_DATA]

theorem jsLe_fin_zero_false (a : ℚ) (ha : 0 < a) : jsLe (.fin a) (.fin 0) = false := by
  simp only [jsLe, decide_eq_false_iff_not, not_le]
  exact ha

/-- Characterisation of the typed `calculations` on finite positive parsed
inputs: closed-form values of all six result fields. -/
theorem calculations_pos_eq (k : InstrumentKey) (s r : String) (a b : ℚ)
    (hs : orZero (parseFloat s) = .fin a) (hr : orZero (parseFloat r) = .fin b)
    (ha : 0 < a) (hb : 0 < b) :
    calculations k s r =
      { rawLotSize :=
          .fin (b / (a * (INSTRUMENT_DATA k).ticksPerPoint * (INSTRUMENT_DATA k).tickValue)),
        floorLotSize :=
          .fin ((⌊b / (a * (INSTRUMENT_DATA k).ticksPerPoint * (INSTRUMENT_DATA k).tickValue)⌋ : ℤ)),
        riskForFloor :=
          .fin ((⌊b / (a * (INSTRUMENT_DATA k).ticksPerPoint * (INSTRUMENT_DATA k).tickValue)⌋ : ℤ) *
            (a * (INSTRUMENT_DATA k).ticksPerPoint * (INSTRUMENT_DATA k).tickValue)),
        ceilLotSize :=
          .fin ((⌈b / (a * (INSTRUMENT_DATA k).ticksPerPoint * (INSTRUMENT_DATA k).tickValue)⌉ : ℤ)),
        riskForCeil :=
          .fin ((⌈b / (a * (INSTRUMENT_DATA k).ticksPerPoint * (INSTRUMENT_DATA k).tickValue)⌉ : ℤ) *
            (a * (INSTRUMENT_DATA k).ticksPerPoint * (INSTRUMENT_DATA k).tickValue)),
        riskForOneContract :=
          .fin (a * (INSTRUMENT_DATA k).ticksPerPoint * (INSTRUMENT_DATA k).tickValue) } := by
  have ht := ticksPerPoint_pos k
  have hv := tickValue_pos k
  have hrpc : 0 < a * (INSTRUMENT_DATA k).ticksPerPoint * (INSTRUMENT_DATA k).tickValue := by
    positivity
  have h1 := jsLe_fin_zero_false a ha
  have h2 := jsLe_fin_zero_false b hb
  simp [calculations, hs, hr, h1, h2, jsMul, jsDiv, jsFloor, jsCeil, jsIsNaN, ne_of_gt hrpc]

end PBLotSize

namespace PBLotSize

/-! ## Claims -/

/-- C1: for every instrument and every input pair whose parsed stop-loss
distance or parsed risk budget is `<= 0`, `calculations` returns
`rawLotSize = floorLotSize = riskForFloor = ceilLotSize = riskForCeil = 0`,
and `riskForOneContract` equals
`stopLossDistance * ticksPerPoint * tickValue` whenever the parsed
stop-loss distance is `> 0` and `0` otherwise. -/
theorem c1_degenerate_case (k : InstrumentKey) (s r : String)
    (h : jsLe (orZero (parseFloat s)) (.fin 0) = true ∨
         jsLe (orZero (parseFloat r)) (.fin 0) = true) :
    (calculations k s r).rawLotSize = .fin 0 ∧
    (calculations k s r).floorLotSize = .fin 0 ∧
    (calculations k s r).riskForFloor = .fin 0 ∧
    (calculations k s r).ceilLotSize = .fin 0 ∧
    (calculations k s r).riskForCeil = .fin 0 ∧
    (calculations k s r).riskForOneContract =
      (if jsLt (.fin 0) (orZero (parseFloat s))
        then jsMul (jsMul (orZero (parseFloat s)) (.fin (INSTRUMENT_DATA k).ticksPerPoint))
               (.fin (INSTRUMENT_DATA k).tickValue)
        else .fin 0) := by
  have hg : (jsLe (orZero (parseFloat s)) (.fin 0) ||
      jsLe (orZero (parseFloat r)) (.fin 0)) = true := by
    rcases h with h | h <;> simp [h]
  simp [calculations, hg]

/-- Witness for C1 at instrument NQ, stop-loss text `"0"`, risk text
`"100"`. -/
theorem c1_degenerate_case_witness :
    (jsLe (orZero (parseFloat "0")) (.fin 0) = true ∨
     jsLe (orZero (parseFloat "100")) (.fin 0) = true) ∧
    ((calculations .NQ "0" "100").rawLotSize = .fin 0 ∧
     (calculations .NQ "0" "100").floorLotSize = .fin 0 ∧
     (calculations .NQ "0" "100").riskForFloor = .fin 0 ∧
     (calculations .NQ "0" "100").ceilLotSize = .fin 0 ∧
     (calculations .NQ "0" "100").riskForCeil = .fin 0 ∧
     (calculations .NQ "0" "100").riskForOneContract =
       (if jsLt (.fin 0) (orZero (parseFloat "0"))
         then jsMul (jsMul (orZero (parseFloat "0")) (.fin (INSTRUMENT_DATA .NQ).ticksPerPoint))
                (.fin (INSTRUMENT_DATA .NQ).tickValue)
         else .fin 0)) :=
  ⟨Or.inl (by with_unfolding_all decide),
   c1_degenerate_case .NQ "0" "100" (Or.inl (by with_unfolding_all decide))⟩

/-- C2 as stated is refuted at instrument NQ, stop-loss text `"Infinity"`,
risk text `"100"`: both parsed inputs are `> 0`, but the returned
`riskForFloor` is `0` (the computed `0 * Infinity = NaN` was normalised)
while `floorLotSize * riskForOneContract` re-evaluates to NaN, so the
claimed exact product equation fails. -/
theorem c2_counterexample :
    jsLt (.fin 0) (orZero (parseFloat "Infinity")) = true ∧
    jsLt (.fin 0) (orZero (parseFloat "100")) = true ∧
    (calculations .NQ "Infinity" "100").riskForFloor ≠
      jsMul (calculations .NQ "Infinity" "100").floorLotSize
        (calculations .NQ "Infinity" "100").riskForOneContract := by
  with_unfolding_all decide

/-- C2 (amended): for every instrument and every input pair whose parsed
stop-loss distance and risk budget are finite and positive, `calculations`
returns `riskForOneContract = stopLoss * ticksPerPoint * tickValue`,
`rawLotSize = riskBudget / riskForOneContract`, its floor and ceiling as
the two contract counts, and exactly
`riskForFloor = floorLotSize * riskForOneContract` and
`riskForCeil = ceilLotSize * riskForOneContract`. -/
theorem c2_amended_exact_sizing (k : InstrumentKey) (s r : String) (a b : ℚ)
    (hs : orZero (parseFloat s) = .fin a) (hr : orZero (parseFloat r) = .fin b)
    (ha : 0 < a) (hb : 0 < b) :
    (calculations k s r).riskForOneContract =
      .fin (a * (INSTRUMENT_DATA k).ticksPerPoint * (INSTRUMENT_DATA k).tickValue) ∧
    (calculations k s r).rawLotSize =
      .fin (b / (a * (INSTRUMENT_DATA k).ticksPerPoint * (INSTRUMENT_DATA k).tickValue)) ∧
    (calculations k s r).floorLotSize =
      .fin ((⌊b / (a * (INSTRUMENT_DATA k).ticksPerPoint * (INSTRUMENT_DATA k).tickValue)⌋ : ℤ)) ∧
    (calculations k s r).ceilLotSize =
      .fin ((⌈b / (a * (INSTRUMENT_DATA k).ticksPerPoint * (INSTRUMENT_DATA k).tickValue)⌉ : ℤ)) ∧
    (calculations k s r).riskForFloor =
      jsMul (calculations k s r).floorLotSize (calculations k s r).riskForOneContract ∧
    (calculations k s r).riskForCeil =
      jsMul (calculations k s r).ceilLotSize (calculations k s r).riskForOneContract := by
  rw [calculations_pos_eq k s r a b hs hr ha hb]
  refine ⟨rfl, rfl, rfl, rfl, ?_, ?_⟩ <;> simp [jsMul]

/-- Witness for the amended C2 at instrument NQ, stop-loss `"10"`, risk
`"100"`: risk for one contract 200, raw size 1/2, floor 0, ceiling 1. -/
theorem c2_amended_exact_sizing_witness :
    (orZero (parseFloat "10") = .fin 10 ∧ orZero (parseFloat "100") = .fin 100 ∧
     (0 : ℚ) < 10 ∧ (0 : ℚ) < 100) ∧
    ((calculations .NQ "10" "100").riskForOneContract =
       .fin (10 * (INSTRUMENT_DATA .NQ).ticksPerPoint * (INSTRUMENT_DATA .NQ).tickValue) ∧
     (calculations .NQ "10" "100").rawLotSize =
       .fin (100 / (10 * (INSTRUMENT_DATA .NQ).ticksPerPoint * (INSTRUMENT_DATA .NQ).tickValue)) ∧
     (calculations .NQ "10" "100").floorLotSize =
       .fin ((⌊(100 : ℚ) / (10 * (INSTRUMENT_DATA .NQ).ticksPerPoint * (INSTRUMENT_DATA .NQ).tickValue)⌋ : ℤ)) ∧
     (calculations .NQ "10" "100").ceilLotSize =
       .fin ((⌈(100 : ℚ) / (10 * (INSTRUMENT_DATA .NQ).ticksPerPoint * (INSTRUMENT_DATA .NQ).tickValue)⌉ : ℤ)) ∧
     (calculations .NQ "10" "100").riskForFloor =
       jsMul (calculations .NQ "10" "100").floorLotSize
         (calculations .NQ "10" "100").riskForOneContract ∧
     (calculations .NQ "10" "100").riskForCeil =
       jsMul (calculations .NQ "10" "100").ceilLotSize
         (calculations .NQ "10" "100").riskForOneContract) :=
  ⟨⟨by with_unfolding_all decide, by with_unfolding_all decide,
    by norm_num, by norm_num⟩,
   c2_amended_exact_sizing .NQ "10" "100" 10 100
     (by with_unfolding_all decide) (by with_unfolding_all decide)
     (by norm_num) (by norm_num)⟩

/-- C3: at instrument NQ, stop-loss `"10"`, risk `"Infinity"`, the typed
`calculations` variant returns `Infinity` in all five sizing fields
instead of normalising non-finite values to `0` as the spec requires
(its guard checks only `isNaN`), while the untyped variant — which also
checks `isFinite` — returns `0` as specified. -/
theorem c3_nonfinite_normalisation_bug :
    (calculations .NQ "10" "Infinity").rawLotSize = .inf true ∧
    (calculations .NQ "10" "Infinity").floorLotSize = .inf true ∧
    (calculations .NQ "10" "Infinity").riskForFloor = .inf true ∧
    (calculations .NQ "10" "Infinity").ceilLotSize = .inf true ∧
    (calculations .NQ "10" "Infinity").riskForCeil = .inf true ∧
    (calculationsUntyped .NQ "10" "Infinity").rawLotSize = .fin 0 ∧
    (calculationsUntyped .NQ "10" "Infinity").floorLotSize = .fin 0 ∧
    (calculationsUntyped .NQ "10" "Infinity").riskForFloor = .fin 0 ∧
    (calculationsUntyped .NQ "10" "Infinity").ceilLotSize = .fin 0 ∧
    (calculationsUntyped .NQ "10" "Infinity").riskForCeil = .fin 0 := by
  with_unfolding_all decide

/-- C4: the sizing computation is a pure total function of its three
inputs — two invocations with identical `(instrumentKey, stopLossText,
riskText)` give identical result bundles, for both variants. -/
theorem c4_deterministic (k : InstrumentKey) (s r : String) :
    calculations k s r = calculations k s r ∧
    calculationsUntyped k s r = calculationsUntyped k s r :=
  ⟨rfl, rfl⟩

end PBLotSize

namespace PBLotSize

/-- Replace an infinite value by `0`, leaving NaN and finite values alone
(the gluing map relating the two `calculations` variants). -/
def zeroIfInf : JSNum → JSNum
  | .inf _ => .fin 0
  | n => n

/-- Apply `zeroIfInf` to the five sizing fields of a result bundle,
leaving `riskForOneContract` untouched. -/
def normInfFive (res : SizingResult) : SizingResult :=
  { rawLotSize := zeroIfInf res.rawLotSize,
    floorLotSize := zeroIfInf res.floorLotSize,
    riskForFloor := zeroIfInf res.riskForFloor,
    ceilLotSize := zeroIfInf res.ceilLotSize,
    riskForCeil := zeroIfInf res.riskForCeil,
    riskForOneContract := res.riskForOneContract }

theorem untyped_field_eq (v : JSNum) :
    (if jsIsNaN v = true ∨ jsIsFinite v = false then JSNum.fin 0 else v) =
      zeroIfInf (if jsIsNaN v = true then JSNum.fin 0 else v) := by
  cases v <;> simp [jsIsNaN, jsIsFinite, zeroIfInf]

/-- C5 as stated is refuted at instrument NQ, stop-loss `"10"`, risk
`"Infinity"`: the typed and untyped variants return different bundles
(the typed one keeps the infinite sizing values, the untyped one zeroes
them). -/
theorem c5_counterexample :
    calculations .NQ "10" "Infinity" ≠ calculationsUntyped .NQ "10" "Infinity" := by
  with_unfolding_all decide

/-- C5 (amended): on every input triple, the untyped variant equals the
typed variant with infinite values in the five sizing fields normalised to
`0`; in particular the two variants agree whenever no sizing field of the
typed result is infinite. -/
theorem c5_amended_variant_refinement (k : InstrumentKey) (s r : String) :
    calculationsUntyped k s r = normInfFive (calculations k s r) := by
  simp only [calculations, calculationsUntyped]
  by_cases hg : (jsLe (orZero (parseFloat s)) (.fin 0) ||
      jsLe (orZero (parseFloat r)) (.fin 0)) = true
  · simp [hg, normInfFive, zeroIfInf]
  · simp only [Bool.not_eq_true] at hg
    simp [hg, normInfFive, untyped_field_eq]

end PBLotSize

namespace PBLotSize

/-- C6 as stated is refuted at instrument NQ, stop-loss `"10"`, risk
`"Infinity"`: both parsed inputs are `> 0`, but the returned floored and
ceiled contract counts are both `Infinity`, so their difference is NaN and
lies in neither `{0}` nor `{1}`. -/
theorem c6_counterexample :
    jsLt (.fin 0) (orZero (parseFloat "10")) = true ∧
    jsLt (.fin 0) (orZero (parseFloat "Infinity")) = true ∧
    ¬ (jsSub (calculations .NQ "10" "Infinity").ceilLotSize
         (calculations .NQ "10" "Infinity").floorLotSize = .fin 0 ∨
       jsSub (calculations .NQ "10" "Infinity").ceilLotSize
         (calculations .NQ "10" "Infinity").floorLotSize = .fin 1) := by
  with_unfolding_all decide

/-- C6 (amended): for every instrument and every input pair whose parsed
stop-loss distance and risk budget are finite and positive,
`floorLotSize <= rawLotSize <= ceilLotSize` (in JS order), and
`ceilLotSize - floorLotSize` (in JS subtraction) is `0` or `1`. -/
theorem c6_amended_rounding_bracket (k : InstrumentKey) (s r : String) (a b : ℚ)
    (hs : orZero (parseFloat s) = .fin a) (hr : orZero (parseFloat r) = .fin b)
    (ha : 0 < a) (hb : 0 < b) :
    jsLe (calculations k s r).floorLotSize (calculations k s r).rawLotSize = true ∧
    jsLe (calculations k s r).rawLotSize (calculations k s r).ceilLotSize = true ∧
    (jsSub (calculations k s r).ceilLotSize (calculations k s r).floorLotSize = .fin 0 ∨
     jsSub (calculations k s r).ceilLotSize (calculations k s r).floorLotSize = .fin 1) := by
  rw [calculations_pos_eq k s r a b hs hr ha hb]
  refine ⟨?_, ?_, ?_⟩
  · simp only [jsLe, decide_eq_true_eq]
    exact Int.floor_le _
  · simp only [jsLe, decide_eq_true_eq]
    exact Int.le_ceil _
  · have h1 := Int.floor_le_ceil
      (b / (a * (INSTRUMENT_DATA k).ticksPerPoint * (INSTRUMENT_DATA k).tickValue))
    have h2 := Int.ceil_le_floor_add_one
      (b / (a * (INSTRUMENT_DATA k).ticksPerPoint * (INSTRUMENT_DATA k).tickValue))
    simp only [jsSub, JSNum.fin.injEq]
    rcases (by omega :
        ⌈b / (a * (INSTRUMENT_DATA k).ticksPerPoint * (INSTRUMENT_DATA k).tickValue)⌉ =
          ⌊b / (a * (INSTRUMENT_DATA k).ticksPerPoint * (INSTRUMENT_DATA k).tickValue)⌋ ∨
        ⌈b / (a * (INSTRUMENT_DATA k).ticksPerPoint * (INSTRUMENT_DATA k).tickValue)⌉ =
          ⌊b / (a * (INSTRUMENT_DATA k).ticksPerPoint * (INSTRUMENT_DATA k).tickValue)⌋ + 1)
      with h | h
    · left
      rw [h]
      ring
    · right
      rw [h]
      push_cast
      ring

/-- Witness for the amended C6 at instrument NQ, stop-loss `"10"`, risk
`"100"`: floor 0 ≤ raw 1/2 ≤ ceiling 1, difference 1. -/
theorem c6_amended_rounding_bracket_witness :
    (orZero (parseFloat "10") = .fin 10 ∧ orZero (parseFloat "100") = .fin 100 ∧
     (0 : ℚ) < 10 ∧ (0 : ℚ) < 100) ∧
    (jsLe (calculations .NQ "10" "100").floorLotSize
       (calculations .NQ "10" "100").rawLotSize = true ∧
     jsLe (calculations .NQ "10" "100").rawLotSize
       (calculations .NQ "10" "100").ceilLotSize = true ∧
     (jsSub (calculations .NQ "10" "100").ceilLotSize
        (calculations .NQ "10" "100").floorLotSize = .fin 0 ∨
      jsSub (calculations .NQ "10" "100").ceilLotSize
        (calculations .NQ "10" "100").floorLotSize = .fin 1)) :=
  ⟨⟨by with_unfolding_all decide, by with_unfolding_all decide, by norm_num, by norm_num⟩,
   c6_amended_rounding_bracket .NQ "10" "100" 10 100
     (by with_unfolding_all decide) (by with_unfolding_all decide)
     (by norm_num) (by norm_num)⟩

end PBLotSize

namespace PBLotSize

/-- C7: from any state with the toggle inactive (`Full`) and risk text `R`,
halving then restoring yields risk text `R` again with the toggle inactive;
and concretely, halving from the initial state (risk `"100"`) gives risk
`"50"` with snapshot `"100"`, and restoring gives back `"100"`. -/
theorem c7_toggle_round_trip (st : AppState) (h : st.isHalfRisk = false) :
    ((handleFullRisk (handleHalfRisk st)).riskAmount = st.riskAmount ∧
     (handleFullRisk (handleHalfRisk st)).isHalfRisk = false) ∧
    ((handleHalfRisk initialState).riskAmount = "50" ∧
     (handleHalfRisk initialState).fullRiskValue = "100" ∧
     (handleFullRisk (handleHalfRisk initialState)).riskAmount = "100") := by
  refine ⟨?_, ?_, ?_, ?_⟩
  · simp [handleHalfRisk, handleFullRisk, h]
  · with_unfolding_all rfl
  · with_unfolding_all rfl
  · with_unfolding_all rfl

/-- Witness for C7 at the initial state (toggle inactive, risk `"100"`). -/
theorem c7_toggle_round_trip_witness :
    initialState.isHalfRisk = false ∧
    (handleFullRisk (handleHalfRisk initialState)).riskAmount = initialState.riskAmount ∧
    (handleFullRisk (handleHalfRisk initialState)).isHalfRisk = false :=
  ⟨rfl, (c7_toggle_round_trip initialState rfl).1.1, (c7_toggle_round_trip initialState rfl).1.2⟩

/-- C8: across the three operations, the snapshot `fullRiskValue` is
overwritten only while the toggle is inactive — a risk edit updates it to
the edited text exactly in state `Full` and leaves it unchanged in state
`Half`, the halve trigger overwrites it (with the pre-halving risk text)
only from state `Full`, and the restore trigger never changes it. -/
theorem c8_snapshot_invariant (st : AppState) (v : String) :
    (handleRiskAmountChange v st).fullRiskValue =
      (if st.isHalfRisk then st.fullRiskValue else v) ∧
    (handleHalfRisk st).fullRiskValue =
      (if st.isHalfRisk then st.fullRiskValue else st.riskAmount) ∧
    (handleFullRisk st).fullRiskValue = st.fullRiskValue := by
  cases h : st.isHalfRisk <;>
    simp [handleRiskAmountChange, handleHalfRisk, handleFullRisk, h]

/-- C9: the restore trigger is the identity on any state with the toggle
inactive, and the halve trigger is the identity on any state with the
toggle active — wrong-state invocations are ignored, not errored. -/
theorem c9_toggle_noop (st : AppState) :
    (st.isHalfRisk = false → handleFullRisk st = st) ∧
    (st.isHalfRisk = true → handleHalfRisk st = st) := by
  constructor <;> intro h <;> simp [handleFullRisk, handleHalfRisk, h]

/-- Witness for C9: restore is a no-op at the initial state (toggle
inactive), halve is a no-op at the halved initial state (toggle active). -/
theorem c9_toggle_noop_witness :
    initialState.isHalfRisk = false ∧
    handleFullRisk initialState = initialState ∧
    (handleHalfRisk initialState).isHalfRisk = true ∧
    handleHalfRisk (handleHalfRisk initialState) = handleHalfRisk initialState :=
  ⟨rfl, (c9_toggle_noop initialState).1 rfl,
   by with_unfolding_all rfl,
   (c9_toggle_noop (handleHalfRisk initialState)).2 (by with_unfolding_all rfl)⟩

/-- A concrete state whose risk text is unparsable (empty), used to witness
C10. -/
def emptyRiskState : AppState :=
  { instrument := .NQ, stopLossPoints := "10", riskAmount := "",
    isHalfRisk := false, fullRiskValue := "" }

/-- C10: invoking the halve trigger from state `Full` with a risk text that
`parseFloat` cannot parse sets the risk text to the literal string `"NaN"`
(`(NaN / 2).toString()` with no zero fallback), while the snapshot keeps
the original text and the restore trigger recovers it exactly; the sizing
engine parses the text `"NaN"` as `0`, so it computes as if the risk budget
were `0`. -/
theorem c10_nan_halving (st : AppState) (h : st.isHalfRisk = false)
    (hp : parseFloat st.riskAmount = .nan) :
    (handleHalfRisk st).riskAmount = "NaN" ∧
    (handleHalfRisk st).fullRiskValue = st.riskAmount ∧
    (handleFullRisk (handleHalfRisk st)).riskAmount = st.riskAmount ∧
    orZero (parseFloat "NaN") = .fin 0 ∧
    (∀ (k : InstrumentKey) (stop : String), calculations k stop "NaN" = calculations k stop "0") := by
  have hnan : orZero (parseFloat "NaN") = .fin 0 := by with_unfolding_all rfl
  have h0 : orZero (parseFloat "0") = .fin 0 := by with_unfolding_all rfl
  refine ⟨?_, ?_, ?_, hnan, ?_⟩
  · simp [handleHalfRisk, h, hp, jsDiv, jsNumToString]
  · simp [handleHalfRisk, h]
  · simp [handleHalfRisk, handleFullRisk, h]
  · intro k stop
    simp only [calculations, hnan, h0]

/-- Witness for C10 at a state with empty (unparsable) risk text. -/
theorem c10_nan_halving_witness :
    (emptyRiskState.isHalfRisk = false ∧ parseFloat emptyRiskState.riskAmount = .nan) ∧
    ((handleHalfRisk emptyRiskState).riskAmount = "NaN" ∧
     (handleHalfRisk emptyRiskState).fullRiskValue = emptyRiskState.riskAmount ∧
     (handleFullRisk (handleHalfRisk emptyRiskState)).riskAmount = emptyRiskState.riskAmount) :=
  ⟨⟨rfl, by with_unfolding_all rfl⟩,
   ⟨(c10_nan_halving emptyRiskState rfl (by with_unfolding_all rfl)).1,
    (c10_nan_halving emptyRiskState rfl (by with_unfolding_all rfl)).2.1,
    (c10_nan_halving emptyRiskState rfl (by with_unfolding_all rfl)).2.2.1⟩⟩

end PBLotSize
